import Mathlib

/-!
Verification of the entity-resolution core of `cbv/views.py` (a class-based-view
reference browser).  The data model is a strict tree Package → Version → Module
→ Class; the views resolve an entity from an identifying tuple by an exact
(case-sensitive) lookup followed by a case-insensitive fallback, record a
push-state redirect hint when only the fallback hit, and build a sitemap in a
canonical order.  Django querysets are embedded as list filters; a queryset
`.get()` is a function returning either the unique element or a query error
(`DoesNotExist` on zero matches, `MultipleObjectsReturned` on several), and an
uncaught Django exception is carried explicitly in the page result type.
-/

namespace CBV

open Batteries

/-- A `DecidableEq` instance for `Except`, needed to evaluate page results on
concrete stores. -/
instance {ε α : Type} [DecidableEq ε] [DecidableEq α] : DecidableEq (Except ε α) := fun x y =>
  match x, y with
  | .ok a, .ok b =>
    if h : a = b then isTrue (by rw [h]) else isFalse (fun hh => h (Except.ok.inj hh))
  | .error e, .error f =>
    if h : e = f then isTrue (by rw [h]) else isFalse (fun hh => h (Except.error.inj hh))
  | .ok _, .error _ => isFalse (fun hh => Except.noConfusion hh)
  | .error _, .ok _ => isFalse (fun hh => Except.noConfusion hh)

/-- Model of Django's `iexact` field lookup: case-insensitive string equality,
realised by comparing the character lists after lowercasing. -/
def iexact (a b : String) : Bool :=
  a.data.map Char.toLower == b.data.map Char.toLower

/-- A package (the `Project` model): a named web framework. -/
structure Project where
  name : String
deriving DecidableEq

/-- A version of a package (the `ProjectVersion` model).  `version_number` is the
human-entered string; `sortable_version_number` is the derived monotonically
comparable key used for ordering. -/
structure ProjectVersion where
  project : Project
  version_number : String
  sortable_version_number : Nat
deriving DecidableEq

/-- A module belonging to one version (the `Module` model). -/
structure Module where
  project_version : ProjectVersion
  name : String
deriving DecidableEq

/-- A class belonging to one module (the `Klass` model). -/
structure Klass where
  module : Module
  name : String
deriving DecidableEq

/-- The external entity store, holding the records the views query.  Parent
records are denormalised into the children, mirroring the joined rows Django's
`select_related` produces. -/
structure Store where
  versions : List ProjectVersion
  modules : List Module
  klasses : List Klass

/-- The two errors a Django queryset `.get()` can raise. -/
inductive QueryError where
  | doesNotExist
  | multipleObjectsReturned
deriving DecidableEq

/-- The outcome of a failed page render: `http404` for a raised `Http404`, and
`uncaught e` for a query error that no `except` clause in the view handles. -/
inductive PageError where
  | http404
  | uncaught (e : QueryError)
deriving DecidableEq

/-- Django's `QuerySet.get()`: the unique match, `DoesNotExist` on zero matches,
`MultipleObjectsReturned` on more than one. -/
def qsGet {α : Type} : List α → Except QueryError α
  | [] => .error .doesNotExist
  | [a] => .ok a
  | _ :: _ :: _ => .error .multipleObjectsReturned

/-- Modelled from the spec: the URL of the home page, produced by
`reverse("home")` in the URL-routing collaborator, which is outside `src/`.
Only its value as a fixed string matters here. -/
def homeURL : String := "/"

/-- Modelled from the spec: `Klass.get_absolute_url` lives in `cbv/models.py`,
which is outside `src/`.  The spec fixes its inputs: the canonical URL is
derived from the entity's own stored field values (package name, version
number, module name, class name), never from request input.  A concrete path
scheme realises that contract. -/
def Klass.get_absolute_url (k : Klass) : String :=
  "/" ++ k.module.project_version.project.name ++ "/" ++
    k.module.project_version.version_number ++ "/" ++ k.module.name ++ "/" ++ k.name ++ "/"

/-- Modelled from the spec: `Module.get_absolute_url` lives in `cbv/models.py`,
outside `src/`; as for classes, it is derived from the module's own stored
field values. -/
def Module.get_absolute_url (m : Module) : String :=
  "/" ++ m.project_version.project.name ++ "/" ++
    m.project_version.version_number ++ "/" ++ m.name ++ "/"

/-- The running maximum of a list of versions by `sortable_version_number`,
keeping the earlier element on ties. -/
def maxBySortable (acc : ProjectVersion) (l : List ProjectVersion) : ProjectVersion :=
  l.foldl (fun best w =>
    if best.sortable_version_number < w.sortable_version_number then w else best) acc

/-- Modelled from the spec: `ProjectVersion.objects.get_latest` lives in
`cbv/models.py`, outside `src/`.  Per the spec it filters the versions of the
named package (exact, case-sensitive name match), returns the one with the
maximum `sortable_version_number`, and fails with `DoesNotExist` when the
package has no versions or does not exist. -/
def ProjectVersion.get_latest (s : Store) (package : String) : Except QueryError ProjectVersion :=
  match s.versions.filter (fun pv => pv.project.name == package) with
  | [] => .error .doesNotExist
  | v :: vs => .ok (maxBySortable v vs)

/-- Modelled from the spec: `Klass.objects.get_latest_for_name` lives in
`cbv/models.py`, outside `src/`.  Per the spec it is a single specialized
fuzzy query: the class with the given name (case-insensitive) in the latest
version of the named package (case-insensitive), failing with `DoesNotExist`
when there is no match. -/
def Klass.get_latest_for_name (s : Store) (klass_name project_name : String) :
    Except QueryError Klass :=
  match s.versions.filter (fun pv => iexact pv.project.name project_name) with
  | [] => .error .doesNotExist
  | v :: vs =>
    qsGet (s.klasses.filter (fun k =>
      iexact k.name klass_name && k.module.project_version == maxBySortable v vs))

namespace KlassDetailView

/-- The queryset of `get_precise_object`: exact (case-sensitive) equality on
every field of the tuple, scoped through the parent chain. -/
def precise_queryset (s : Store) (package version mod_name klass : String) : List Klass :=
  s.klasses.filter (fun k =>
    k.name == klass &&
    k.module.name == mod_name &&
    k.module.project_version.version_number == version &&
    k.module.project_version.project.name == package)

/-- The queryset of `get_fuzzy_object`: the same tuple compared with `iexact`
on every field. -/
def fuzzy_queryset (s : Store) (package version mod_name klass : String) : List Klass :=
  s.klasses.filter (fun k =>
    iexact k.name klass &&
    iexact k.module.name mod_name &&
    iexact k.module.project_version.version_number version &&
    iexact k.module.project_version.project.name package)

/-- `KlassDetailView.get_precise_object`: exact-match queryset followed by
`.get()`. -/
def get_precise_object (s : Store) (package version mod_name klass : String) :
    Except QueryError Klass :=
  qsGet (precise_queryset s package version mod_name klass)

/-- `KlassDetailView.get_fuzzy_object`: case-insensitive queryset followed by
`.get()`. -/
def get_fuzzy_object (s : Store) (package version mod_name klass : String) :
    Except QueryError Klass :=
  qsGet (fuzzy_queryset s package version mod_name klass)

/-- `KlassDetailView.get_object` combined with the `push_state_url` context it
produces: try the precise lookup; on `DoesNotExist` try the fuzzy lookup and
record the object's canonical URL as the push-state hint; if that also raises
`DoesNotExist`, raise `Http404`.  Any `MultipleObjectsReturned` escapes the
`except` clauses. -/
def get_object (s : Store) (package version mod_name klass : String) :
    Except PageError (Klass × Option String) :=
  match get_precise_object s package version mod_name klass with
  | .ok obj => .ok (obj, none)
  | .error .multipleObjectsReturned => .error (.uncaught .multipleObjectsReturned)
  | .error .doesNotExist =>
    match get_fuzzy_object s package version mod_name klass with
    | .ok obj => .ok (obj, some obj.get_absolute_url)
    | .error .doesNotExist => .error .http404
    | .error .multipleObjectsReturned => .error (.uncaught .multipleObjectsReturned)

end KlassDetailView

namespace LatestKlassDetailView

/-- `LatestKlassDetailView.get_precise_object` unconditionally raises
`DoesNotExist`: even a case-sensitive match is routed through the fuzzy
lookup, because the page always pushes a new URL. -/
def get_precise_object (_s : Store) (_package _klass : String) : Except QueryError Klass :=
  .error .doesNotExist

/-- `LatestKlassDetailView.get_fuzzy_object`: delegates to
`Klass.objects.get_latest_for_name`. -/
def get_fuzzy_object (s : Store) (package klass : String) : Except QueryError Klass :=
  Klass.get_latest_for_name s klass package

/-- `LatestKlassDetailView.get_object` with its `push_state_url` context; the
same try/except shape as `KlassDetailView.get_object`. -/
def get_object (s : Store) (package klass : String) :
    Except PageError (Klass × Option String) :=
  match get_precise_object s package klass with
  | .ok obj => .ok (obj, none)
  | .error .multipleObjectsReturned => .error (.uncaught .multipleObjectsReturned)
  | .error .doesNotExist =>
    match get_fuzzy_object s package klass with
    | .ok obj => .ok (obj, some obj.get_absolute_url)
    | .error .doesNotExist => .error .http404
    | .error .multipleObjectsReturned => .error (.uncaught .multipleObjectsReturned)

end LatestKlassDetailView

namespace ModuleDetailView

/-- The queryset `ModuleDetailView.get` resolves `self.project_version` from:
`iexact` on the version number and the package name. -/
def version_queryset (s : Store) (package version : String) : List ProjectVersion :=
  s.versions.filter (fun pv =>
    iexact pv.version_number version && iexact pv.project.name package)

/-- The queryset of `ModuleDetailView.get_precise_object`: exact module name
within the already-resolved `self.project_version` object. -/
def precise_queryset (s : Store) (pv : ProjectVersion) (mod_name : String) : List Module :=
  s.modules.filter (fun m => m.name == mod_name && m.project_version == pv)

/-- The queryset of `ModuleDetailView.get_fuzzy_object`: `iexact` on module
name, version number and package name. -/
def fuzzy_queryset (s : Store) (package version mod_name : String) : List Module :=
  s.modules.filter (fun m =>
    iexact m.name mod_name &&
    iexact m.project_version.version_number version &&
    iexact m.project_version.project.name package)

/-- `ModuleDetailView.get_precise_object`. -/
def get_precise_object (s : Store) (pv : ProjectVersion) (mod_name : String) :
    Except QueryError Module :=
  qsGet (precise_queryset s pv mod_name)

/-- `ModuleDetailView.get_fuzzy_object`. -/
def get_fuzzy_object (s : Store) (package version mod_name : String) :
    Except QueryError Module :=
  qsGet (fuzzy_queryset s package version mod_name)

/-- `ModuleDetailView.get_object` with its `push_state_url` context, for an
already-resolved `self.project_version`. -/
def get_object (s : Store) (pv : ProjectVersion) (package version mod_name : String) :
    Except PageError (Module × Option String) :=
  match get_precise_object s pv mod_name with
  | .ok obj => .ok (obj, none)
  | .error .multipleObjectsReturned => .error (.uncaught .multipleObjectsReturned)
  | .error .doesNotExist =>
    match get_fuzzy_object s package version mod_name with
    | .ok obj => .ok (obj, some obj.get_absolute_url)
    | .error .doesNotExist => .error .http404
    | .error .multipleObjectsReturned => .error (.uncaught .multipleObjectsReturned)

/-- `ModuleDetailView.get`: first resolve `self.project_version` with the
case-insensitive query (`Http404` if it raises `DoesNotExist`), then resolve
the module. -/
def get (s : Store) (package version mod_name : String) :
    Except PageError (Module × Option String) :=
  match qsGet (version_queryset s package version) with
  | .error .doesNotExist => .error .http404
  | .error .multipleObjectsReturned => .error (.uncaught .multipleObjectsReturned)
  | .ok pv => get_object s pv package version mod_name

/-- The `klass_list` entry of `ModuleDetailView.get_context_data`: all classes
of the resolved module. -/
def klass_list (s : Store) (m : Module) : List Klass :=
  s.klasses.filter (fun k => k.module == m)

end ModuleDetailView

namespace VersionDetailView

/-- The queryset of `VersionDetailView.get_project_version`: `iexact` on the
version number and the package name. -/
def version_queryset (s : Store) (package version : String) : List ProjectVersion :=
  s.versions.filter (fun pv =>
    iexact pv.version_number version && iexact pv.project.name package)

/-- `VersionDetailView.get_project_version`. -/
def get_project_version (s : Store) (package version : String) :
    Except QueryError ProjectVersion :=
  qsGet (version_queryset s package version)

/-- The `object_list` entry of `VersionDetailView.get_context_data`: all
classes under the resolved version. -/
def object_list (s : Store) (pv : ProjectVersion) : List Klass :=
  s.klasses.filter (fun k => k.module.project_version == pv)

/-- `VersionDetailView.get`: resolve the version (`Http404` on
`DoesNotExist`), then build the context listing all its classes. -/
def get (s : Store) (package version : String) :
    Except PageError (ProjectVersion × List Klass) :=
  match get_project_version s package version with
  | .ok pv => .ok (pv, object_list s pv)
  | .error .doesNotExist => .error .http404
  | .error .multipleObjectsReturned => .error (.uncaught .multipleObjectsReturned)

end VersionDetailView

namespace HomeView

/-- `HomeView.get_project_version`: the latest version of the hardcoded
package `"Django"`. -/
def get_project_version (s : Store) : Except QueryError ProjectVersion :=
  ProjectVersion.get_latest s "Django"

/-- `HomeView.get`, inherited from `VersionDetailView` with the overridden
version resolution. -/
def get (s : Store) : Except PageError (ProjectVersion × List Klass) :=
  match get_project_version s with
  | .ok pv => .ok (pv, VersionDetailView.object_list s pv)
  | .error .doesNotExist => .error .http404
  | .error .multipleObjectsReturned => .error (.uncaught .multipleObjectsReturned)

end HomeView

/-- Lexicographic comparison of character lists through `Char.toNat`; the
building block for the sitemap's string sort keys. -/
def charListCmp : List Char → List Char → Ordering
  | [], [] => .eq
  | [], _ :: _ => .lt
  | _ :: _, [] => .gt
  | a :: as, b :: bs => (compare a.toNat b.toNat).then (charListCmp as bs)

/-- String comparison by the underlying character list. -/
def strCmp (a b : String) : Ordering := charListCmp a.data b.data

/-- The comparator realising the sitemap's `order_by` clause: package name
ascending, `sortable_version_number` descending (hence the flipped `compare`),
module name ascending, class name ascending. -/
def klassCmp : Klass → Klass → Ordering :=
  compareLex (Ordering.byKey (fun k : Klass => k.module.project_version.project.name) strCmp)
    (compareLex
      (flip (Ordering.byKey
        (fun k : Klass => k.module.project_version.sortable_version_number) compare))
      (compareLex (Ordering.byKey (fun k : Klass => k.module.name) strCmp)
        (Ordering.byKey (fun k : Klass => k.name) strCmp)))

/-- The non-strict order induced by `klassCmp`, used to sort the sitemap's
class list. -/
def klassLE (a b : Klass) : Prop := klassCmp a b ≠ .gt

instance : DecidableRel klassLE := fun a b => by unfold klassLE; infer_instance

/-- The sitemap priority constants of the source, as exact rationals:
`1.0`, `0.9` and `0.5`. -/
def priorityHome : ℚ := ⟨1, 1, by decide, by decide⟩

/-- The priority `0.9` given to classes of the latest version. -/
def priorityLatest : ℚ := ⟨9, 10, by decide, by decide⟩

/-- The priority `0.5` given to classes of older versions. -/
def priorityOld : ℚ := ⟨1, 2, by decide, by decide⟩

/-- One `{"location": ..., "priority": ...}` dictionary of the sitemap's
`urlset` context. -/
structure SitemapEntry where
  location : String
  priority : ℚ
deriving DecidableEq

/-- `Sitemap.get_context_data`: fetch the latest version of `"Django"` (an
uncaught query error if that fails), sort all classes by the four-part key,
and emit the home entry followed by one entry per class whose priority depends
on whether its version is the latest one. -/
def Sitemap.get_context_data (s : Store) : Except QueryError (List SitemapEntry) :=
  match ProjectVersion.get_latest s "Django" with
  | .error e => .error e
  | .ok latest_version =>
    .ok (⟨homeURL, priorityHome⟩ ::
      (List.insertionSort klassLE s.klasses).map (fun k =>
        ⟨k.get_absolute_url,
         if k.module.project_version = latest_version then priorityLatest else priorityOld⟩))

/-- Definition following the spec's words, for comparison with the code: the
resolver's step-1 exact match on a `{package, version}` tuple is
case-sensitive equality on both fields, scoped through the parent chain
(spec §4.1 step 1, applied to Version resolution). -/
def specExactVersionMatch (s : Store) (package version : String) : List ProjectVersion :=
  s.versions.filter (fun pv =>
    pv.version_number == version && pv.project.name == package)

/-- A request to one of the page controllers, carrying the raw identifying
strings from the URL. -/
inductive PageRequest where
  | klassPage (package version mod_name klass : String)
  | latestKlassPage (package klass : String)
  | modulePage (package version mod_name : String)
  | versionPage (package version : String)
  | homePage
  | sitemapPage

/-- The outcome a page controller hands to the rendering layer. -/
inductive PageOutcome where
  | klassPage (r : Except PageError (Klass × Option String))
  | modulePage (r : Except PageError (Module × Option String))
  | versionPage (r : Except PageError (ProjectVersion × List Klass))
  | sitemapPage (r : Except QueryError (List SitemapEntry))

/-- One request-scoped run of a view against the store, in state-passing form:
the outcome together with the store as the views leave it.  Every view in the
source only issues read queries — no `save`, `create`, `delete` or update
appears — so each branch hands back the store it received. -/
def handle (req : PageRequest) (s : Store) : PageOutcome × Store :=
  match req with
  | .klassPage p v m k => (.klassPage (KlassDetailView.get_object s p v m k), s)
  | .latestKlassPage p k => (.klassPage (LatestKlassDetailView.get_object s p k), s)
  | .modulePage p v m => (.modulePage (ModuleDetailView.get s p v m), s)
  | .versionPage p v => (.versionPage (VersionDetailView.get s p v), s)
  | .homePage => (.versionPage (HomeView.get s), s)
  | .sitemapPage => (.sitemapPage (Sitemap.get_context_data s), s)

/-- The package of the concrete stores used below. -/
def djangoProject : Project := ⟨"Django"⟩

/-- Version `"1.0"` of the two-version store. -/
def pv10 : ProjectVersion := ⟨djangoProject, "1.0", 100⟩

/-- Version `"2.0"` of the two-version store. -/
def pv20 : ProjectVersion := ⟨djangoProject, "2.0", 200⟩

/-- The module of version `"1.0"`. -/
def mod10 : Module := ⟨pv10, "shortcuts"⟩

/-- The module of version `"2.0"`. -/
def mod20 : Module := ⟨pv20, "shortcuts"⟩

/-- The class of version `"1.0"`. -/
def kl10 : Klass := ⟨mod10, "View"⟩

/-- The class of version `"2.0"`. -/
def kl20 : Klass := ⟨mod20, "View"⟩

/-- A store with one package `"Django"`, versions `"1.0"` and `"2.0"`, each
with one module and one class. -/
def storeTwo : Store := ⟨[pv10, pv20], [mod10, mod20], [kl10, kl20]⟩

/-- Version `"1.9"` of the version-ordering store. -/
def pv19 : ProjectVersion := ⟨djangoProject, "1.9", 109⟩

/-- Version `"1.10"` of the version-ordering store: lexicographically before
`"1.9"`, numerically after it. -/
def pv110 : ProjectVersion := ⟨djangoProject, "1.10", 110⟩

/-- A store whose `"Django"` versions are `"1.9"`, `"1.10"` and `"2.0"`, with
sortable keys in the true numeric order. -/
def storeVersions : Store := ⟨[pv19, pv110, pv20], [], []⟩

/-- Swapping the arguments of `charListCmp` swaps the resulting ordering. -/
theorem charListCmp_swap (x y : List Char) : (charListCmp x y).swap = charListCmp y x := by
  induction x generalizing y with
  | nil => cases y <;> rfl
  | cons a as ih =>
    cases y with
    | nil => rfl
    | cons b bs =>
      simp only [charListCmp, Ordering.swap_then, ih bs]
      rw [@OrientedCmp.symm Nat compare _ a.toNat b.toNat]

/-- The non-strict order induced by `charListCmp` is transitive. -/
theorem charListCmp_le_trans (x y z : List Char) :
    charListCmp x y ≠ .gt → charListCmp y z ≠ .gt → charListCmp x z ≠ .gt := by
  induction x generalizing y z with
  | nil => intro _ _; cases z <;> simp [charListCmp]
  | cons a as ih =>
    cases y with
    | nil => intro h1 _; exact absurd rfl h1
    | cons b bs =>
      cases z with
      | nil => intro _ h2; exact absurd rfl h2
      | cons c cs =>
        intro h1 h2
        simp only [charListCmp, ne_eq, Ordering.then_eq_gt, not_or, not_and] at h1 h2 ⊢
        refine ⟨TransCmp.le_trans h1.1 h2.1, fun e1 e2 => ?_⟩
        match ab : compare a.toNat b.toNat with
        | .gt => exact h1.1 ab
        | .eq => exact ih bs cs (h1.2 ab) (h2.2 (TransCmp.cmp_congr_left ab ▸ e1)) e2
        | .lt => exact h2.1 ((OrientedCmp.cmp_eq_gt).2 (TransCmp.cmp_congr_left e1 ▸ ab))

instance : TransCmp charListCmp where
  symm := charListCmp_swap
  le_trans := charListCmp_le_trans _ _ _

instance : TransCmp strCmp where
  symm a b := charListCmp_swap a.data b.data
  le_trans := charListCmp_le_trans _ _ _

instance : TransCmp klassCmp := by unfold klassCmp; infer_instance

instance : IsTrans Klass klassLE := ⟨fun _ _ _ h1 h2 => TransCmp.le_trans h1 h2⟩

instance : IsTotal Klass klassLE := ⟨fun a b => by
  unfold klassLE
  cases h : klassCmp a b
  · exact Or.inl (by simp [h])
  · exact Or.inl (by simp [h])
  · exact Or.inr (by simp [OrientedCmp.cmp_eq_gt.1 h])⟩

/-- Sanity check: `priorityHome` is the rational `1`. -/
theorem priorityHome_eq : priorityHome = 1 := by
  rw [priorityHome, Rat.mk'_eq_divInt, Rat.divInt_eq_div]; norm_num

/-- Sanity check: `priorityLatest` is the rational `0.9`. -/
theorem priorityLatest_eq : priorityLatest = 9 / 10 := by
  rw [priorityLatest, Rat.mk'_eq_divInt, Rat.divInt_eq_div]; norm_num

/-- Sanity check: `priorityOld` is the rational `0.5`. -/
theorem priorityOld_eq : priorityOld = 1 / 2 := by
  rw [priorityOld, Rat.mk'_eq_divInt, Rat.divInt_eq_div]; norm_num

/-- When `v` weakly dominates the accumulator and every list element by
`sortable_version_number` and occurs among them, the running maximum is `v`. -/
theorem maxBySortable_eq_of_max (v : ProjectVersion) :
    ∀ (l : List ProjectVersion) (acc : ProjectVersion),
      (acc = v ∨ acc.sortable_version_number < v.sortable_version_number) →
      (v = acc ∨ v ∈ l) →
      (∀ w ∈ l, w = v ∨ w.sortable_version_number < v.sortable_version_number) →
      maxBySortable acc l = v := by
  intro l
  induction l with
  | nil =>
    intro acc hacc hv _
    rcases hv with hv | hv
    · exact hv.symm
    · cases hv
  | cons w ws ih =>
    intro acc hacc hv hall
    show maxBySortable
      (if acc.sortable_version_number < w.sortable_version_number then w else acc) ws = v
    by_cases hlt : acc.sortable_version_number < w.sortable_version_number
    · rw [if_pos hlt]
      refine ih w (hall w (List.mem_cons_self w ws)) ?_ (fun u hu => hall u (List.mem_cons_of_mem w hu))
      rcases hv with hv | hv
      · subst hv
        rcases hall w (List.mem_cons_self w ws) with hw | hw
        · exact Or.inl hw.symm
        · exact absurd hlt (Nat.lt_asymm hw)
      · rcases List.mem_cons.1 hv with hv | hv
        · exact Or.inl hv
        · exact Or.inr hv
    · rw [if_neg hlt]
      refine ih acc hacc ?_ (fun u hu => hall u (List.mem_cons_of_mem w hu))
      rcases hv with hv | hv
      · exact Or.inl hv
      · rcases List.mem_cons.1 hv with hv | hv
        · subst hv
          rcases hacc with hacc | hacc
          · exact Or.inl hacc.symm
          · exact absurd hacc hlt
        · exact Or.inr hv

/-- C1: a key tuple whose exact (case-sensitive, parent-chain-scoped) match is
exactly one class resolves to that class with no redirect hint: the
`push_state_url` stays `none`. -/
theorem klass_exact_match_returns_without_redirect
    (s : Store) (p v m k : String) (kl : Klass)
    (h : KlassDetailView.precise_queryset s p v m k = [kl]) :
    KlassDetailView.get_object s p v m k = .ok (kl, none) := by
  unfold KlassDetailView.get_object KlassDetailView.get_precise_object
  rw [h]
  rfl

/-- Witness for C1: on the two-version store, the correctly-cased tuple
(Django, 1.0, shortcuts, View) exact-matches exactly the 1.0 class and
resolves to it with no redirect hint. -/
theorem klass_exact_match_returns_without_redirect_witness :
    KlassDetailView.precise_queryset storeTwo "Django" "1.0" "shortcuts" "View" = [kl10] ∧
    KlassDetailView.get_object storeTwo "Django" "1.0" "shortcuts" "View" = .ok (kl10, none) :=
  ⟨by decide,
   klass_exact_match_returns_without_redirect storeTwo "Django" "1.0" "shortcuts" "View" kl10
     (by decide)⟩

/-- C2: a key tuple that misses the exact match but case-insensitively matches
exactly one class resolves to that class, and the redirect hint is that
class's canonical URL, a function of the class's own stored fields alone. -/
theorem klass_fuzzy_match_redirects_to_canonical_url
    (s : Store) (p v m k : String) (kl : Klass)
    (hp : KlassDetailView.precise_queryset s p v m k = [])
    (hf : KlassDetailView.fuzzy_queryset s p v m k = [kl]) :
    KlassDetailView.get_object s p v m k = .ok (kl, some kl.get_absolute_url) := by
  unfold KlassDetailView.get_object KlassDetailView.get_precise_object
    KlassDetailView.get_fuzzy_object
  rw [hp, hf]
  rfl

/-- Witness for C2: the miscased tuple (django, 1.0, SHORTCUTS, view) misses
exactly, fuzzily matches only the 1.0 class, and resolves to it with the
canonical URL built from the stored (correctly-cased) fields. -/
theorem klass_fuzzy_match_redirects_to_canonical_url_witness :
    KlassDetailView.precise_queryset storeTwo "django" "1.0" "SHORTCUTS" "view" = [] ∧
    KlassDetailView.fuzzy_queryset storeTwo "django" "1.0" "SHORTCUTS" "view" = [kl10] ∧
    KlassDetailView.get_object storeTwo "django" "1.0" "SHORTCUTS" "view" =
      .ok (kl10, some "/Django/1.0/shortcuts/View/") :=
  ⟨by decide, by decide,
   klass_fuzzy_match_redirects_to_canonical_url storeTwo "django" "1.0" "SHORTCUTS" "view" kl10
     (by decide) (by decide)⟩

/-- C3: a class tuple matching neither exactly nor case-insensitively fails
with exactly `Http404`, and on the module page a version tuple with no
case-insensitive match fails with exactly `Http404` before any module
resolution; no other error and no substitute entity is produced. -/
theorem klass_and_module_miss_yield_http404 (s : Store) (p v m k : String) :
    (KlassDetailView.precise_queryset s p v m k = [] →
      KlassDetailView.fuzzy_queryset s p v m k = [] →
      KlassDetailView.get_object s p v m k = .error .http404) ∧
    (ModuleDetailView.version_queryset s p v = [] →
      ModuleDetailView.get s p v m = .error .http404) := by
  constructor
  · intro hp hf
    unfold KlassDetailView.get_object KlassDetailView.get_precise_object
      KlassDetailView.get_fuzzy_object
    rw [hp, hf]
    rfl
  · intro hv
    unfold ModuleDetailView.get
    rw [hv]
    rfl

/-- Witness for C3: on the two-version store, the tuple (Flask, 9, x, y)
misses every lookup and both pages answer exactly `Http404`. -/
theorem klass_and_module_miss_yield_http404_witness :
    KlassDetailView.get_object storeTwo "Flask" "9" "x" "y" = .error .http404 ∧
    ModuleDetailView.get storeTwo "Flask" "9" "x" = .error .http404 :=
  ⟨(klass_and_module_miss_yield_http404 storeTwo "Flask" "9" "x" "y").1 (by decide) (by decide),
   (klass_and_module_miss_yield_http404 storeTwo "Flask" "9" "x" "y").2 (by decide)⟩

/-- Counterexample to C4: on the two-version store, the tuple
(django, 1.0, shortcuts) resolves its version only case-insensitively (the
exact match is empty, the case-insensitive one finds version 1.0), the module
page succeeds end-to-end — yet the result carries no redirect hint: the
version-level case mismatch is silently dropped, contradicting the claimed
redirected=true. -/
theorem module_version_fuzzy_only_hint_dropped_cex :
    specExactVersionMatch storeTwo "django" "1.0" = [] ∧
    ModuleDetailView.version_queryset storeTwo "django" "1.0" = [pv10] ∧
    ModuleDetailView.get storeTwo "django" "1.0" "shortcuts" = .ok (mod10, none) := by
  decide

/-- C4 as amended: the module page resolves its parent version with a single
case-insensitive query (failing `Http404` before module resolution when it
misses, per C3); when the version resolves, the page succeeds end-to-end, but
the redirect hint follows the module-level lookup alone — it stays absent when
the module name exact-matches within the resolved version, and it is set to
the module's canonical URL exactly when the precise module lookup misses and
the fuzzy one uniquely hits. -/
theorem module_page_hint_follows_module_lookup
    (s : Store) (p v m : String) (pv : ProjectVersion) (mo : Module) :
    (ModuleDetailView.version_queryset s p v = [pv] →
      ModuleDetailView.precise_queryset s pv m = [mo] →
      ModuleDetailView.get s p v m = .ok (mo, none)) ∧
    (ModuleDetailView.version_queryset s p v = [pv] →
      ModuleDetailView.precise_queryset s pv m = [] →
      ModuleDetailView.fuzzy_queryset s p v m = [mo] →
      ModuleDetailView.get s p v m = .ok (mo, some mo.get_absolute_url)) := by
  constructor
  · intro hv hp
    unfold ModuleDetailView.get
    rw [hv]
    show ModuleDetailView.get_object s pv p v m = _
    unfold ModuleDetailView.get_object ModuleDetailView.get_precise_object
    rw [hp]
    rfl
  · intro hv hp hf
    unfold ModuleDetailView.get
    rw [hv]
    show ModuleDetailView.get_object s pv p v m = _
    unfold ModuleDetailView.get_object ModuleDetailView.get_precise_object
      ModuleDetailView.get_fuzzy_object
    rw [hp, hf]
    rfl

/-- Witness for the amended C4: with a fuzzily-resolved version, the exactly
named module yields no hint, while a miscased module name yields the module's
canonical URL as hint. -/
theorem module_page_hint_follows_module_lookup_witness :
    ModuleDetailView.get storeTwo "django" "1.0" "shortcuts" = .ok (mod10, none) ∧
    ModuleDetailView.get storeTwo "django" "1.0" "SHORTCUTS" =
      .ok (mod10, some "/Django/1.0/shortcuts/") :=
  ⟨(module_page_hint_follows_module_lookup storeTwo "django" "1.0" "shortcuts" pv10 mod10).1
     (by decide) (by decide),
   (module_page_hint_follows_module_lookup storeTwo "django" "1.0" "SHORTCUTS" pv10 mod10).2
     (by decide) (by decide) (by decide)⟩

/-- C5: the sitemap output is the home entry at priority 1.0 followed by all
classes in the four-part canonical order — package name ascending, sortable
version number descending, module name ascending, class name ascending — each
at priority 0.9 when its version is the latest `"Django"` version and 0.5
otherwise; on the two-version store it is exactly home, the 2.0 class at 0.9,
then the 1.0 class at 0.5. -/
theorem sitemap_order_and_priorities :
    (∀ (s : Store) (lv : ProjectVersion) (entries : List SitemapEntry),
      ProjectVersion.get_latest s "Django" = .ok lv →
      Sitemap.get_context_data s = .ok entries →
      ∃ tl : List Klass,
        entries = ⟨homeURL, priorityHome⟩ :: tl.map (fun k =>
          ⟨k.get_absolute_url,
           if k.module.project_version = lv then priorityLatest else priorityOld⟩) ∧
        List.Perm tl s.klasses ∧ List.Sorted klassLE tl) ∧
    Sitemap.get_context_data storeTwo =
      .ok [⟨homeURL, priorityHome⟩, ⟨kl20.get_absolute_url, priorityLatest⟩,
           ⟨kl10.get_absolute_url, priorityOld⟩] := by
  constructor
  · intro s lv entries hlatest hctx
    refine ⟨List.insertionSort klassLE s.klasses, ?_,
      List.perm_insertionSort klassLE _, List.sorted_insertionSort klassLE _⟩
    unfold Sitemap.get_context_data at hctx
    rw [hlatest] at hctx
    exact (Except.ok.inj hctx).symm
  · decide

/-- Witness for C5: the general part applied to the two-version store, whose
latest `"Django"` version is 2.0. -/
theorem sitemap_order_and_priorities_witness :
    ∃ tl : List Klass,
      [(⟨homeURL, priorityHome⟩ : SitemapEntry), ⟨kl20.get_absolute_url, priorityLatest⟩,
       ⟨kl10.get_absolute_url, priorityOld⟩] =
        ⟨homeURL, priorityHome⟩ :: tl.map (fun k =>
          ⟨k.get_absolute_url,
           if k.module.project_version = pv20 then priorityLatest else priorityOld⟩) ∧
      List.Perm tl storeTwo.klasses ∧ List.Sorted klassLE tl :=
  sitemap_order_and_priorities.1 storeTwo pv20
    [⟨homeURL, priorityHome⟩, ⟨kl20.get_absolute_url, priorityLatest⟩,
     ⟨kl10.get_absolute_url, priorityOld⟩]
    (by decide) sitemap_order_and_priorities.2

/-- C6: `get_latest` returns the version with the maximum sortable key among
the named package's versions — decided by the derived sortable key, not by the
version-number string — and fails `DoesNotExist` when the package has no
versions or does not exist. -/
theorem get_latest_max_sortable (s : Store) (p : String) (v : ProjectVersion) :
    ((v ∈ s.versions ∧ v.project.name = p) →
      (∀ w ∈ s.versions, w.project.name = p →
        w = v ∨ w.sortable_version_number < v.sortable_version_number) →
      ProjectVersion.get_latest s p = .ok v) ∧
    ((∀ w ∈ s.versions, w.project.name ≠ p) →
      ProjectVersion.get_latest s p = .error .doesNotExist) := by
  constructor
  · intro hv hmax
    have hvf : v ∈ s.versions.filter (fun pv => pv.project.name == p) :=
      List.mem_filter.2 ⟨hv.1, by simp [hv.2]⟩
    have hall : ∀ w ∈ s.versions.filter (fun pv => pv.project.name == p),
        w = v ∨ w.sortable_version_number < v.sortable_version_number := by
      intro w hw
      have hw' := List.mem_filter.1 hw
      exact hmax w hw'.1 (by simpa using hw'.2)
    unfold ProjectVersion.get_latest
    cases hf : s.versions.filter (fun pv => pv.project.name == p) with
    | nil => rw [hf] at hvf; cases hvf
    | cons a tl =>
      rw [hf] at hvf hall
      have : maxBySortable a tl = v := by
        refine maxBySortable_eq_of_max v tl a (hall a (List.mem_cons_self a tl)) ?_
          (fun u hu => hall u (List.mem_cons_of_mem a hu))
        rcases List.mem_cons.1 hvf with h | h
        · exact Or.inl h
        · exact Or.inr h
      show Except.ok (maxBySortable a tl) = Except.ok v
      rw [this]
  · intro h
    have hf : s.versions.filter (fun pv => pv.project.name == p) = [] :=
      List.filter_eq_nil_iff.2 (fun a ha => by simp [h a ha])
    unfold ProjectVersion.get_latest
    rw [hf]

/-- Witness for C6: with versions 1.9, 1.10 and 2.0 (sortable keys 109, 110,
200), the latest `"Django"` version is 2.0 — where a lexicographic comparison
of the version strings would have preferred 1.9 — and a package with no
versions fails `DoesNotExist`. -/
theorem get_latest_max_sortable_witness :
    ProjectVersion.get_latest storeVersions "Django" = .ok pv20 ∧
    ProjectVersion.get_latest storeVersions "Flask" = .error .doesNotExist :=
  ⟨(get_latest_max_sortable storeVersions "Django" pv20).1 (by decide) (by decide),
   (get_latest_max_sortable storeVersions "Flask" pv20).2 (by decide)⟩

/-- C7: the class-by-name-latest page never exact-matches — its precise lookup
unconditionally reports `DoesNotExist` — and goes straight to the single
specialized fuzzy query `get_latest_for_name`, answering `Http404` exactly
when that query misses and the found class otherwise. -/
theorem latest_klass_skips_exact_lookup (s : Store) (p k : String) :
    LatestKlassDetailView.get_precise_object s p k = .error .doesNotExist ∧
    (Klass.get_latest_for_name s k p = .error .doesNotExist →
      LatestKlassDetailView.get_object s p k = .error .http404) ∧
    (∀ kl : Klass, Klass.get_latest_for_name s k p = .ok kl →
      LatestKlassDetailView.get_object s p k = .ok (kl, some kl.get_absolute_url)) := by
  refine ⟨rfl, fun h => ?_, fun kl h => ?_⟩
  · unfold LatestKlassDetailView.get_object LatestKlassDetailView.get_precise_object
      LatestKlassDetailView.get_fuzzy_object
    rw [h]
  · unfold LatestKlassDetailView.get_object LatestKlassDetailView.get_precise_object
      LatestKlassDetailView.get_fuzzy_object
    rw [h]

/-- Witness for C7: on the two-version store the page misses for an unknown
package and finds the 2.0 class for (Django, View). -/
theorem latest_klass_skips_exact_lookup_witness :
    LatestKlassDetailView.get_precise_object storeTwo "Django" "View" =
      .error .doesNotExist ∧
    LatestKlassDetailView.get_object storeTwo "Flask" "View" = .error .http404 ∧
    LatestKlassDetailView.get_object storeTwo "Django" "View" =
      .ok (kl20, some (Klass.get_absolute_url kl20)) :=
  ⟨(latest_klass_skips_exact_lookup storeTwo "Django" "View").1,
   (latest_klass_skips_exact_lookup storeTwo "Flask" "View").2.1 (by decide),
   (latest_klass_skips_exact_lookup storeTwo "Django" "View").2.2 kl20 (by decide)⟩

/-- Counterexample to C8: the version detail page does not resolve by exact
(case-sensitive) matching — on the two-version store the tuple
(django, 1.0) has no exact match, yet the page succeeds, because the source
queries with `iexact` on both fields. -/
theorem version_page_exact_resolution_cex :
    specExactVersionMatch storeTwo "django" "1.0" = [] ∧
    VersionDetailView.get storeTwo "django" "1.0" = .ok (pv10, [kl10]) := by
  decide

/-- C8 as amended: the version detail page resolves its version by a single
case-insensitive match on package name and version number (not by exact
case-sensitive equality); the home page resolves the latest version of the
hardcoded package `"Django"`; in both cases the context lists all classes of
the resolved version, and a failed resolution yields `Http404`. -/
theorem version_page_ci_resolution (s : Store) (p v : String) (pv : ProjectVersion) :
    (VersionDetailView.version_queryset s p v = [pv] →
      VersionDetailView.get s p v =
        .ok (pv, s.klasses.filter (fun k => k.module.project_version == pv))) ∧
    (VersionDetailView.version_queryset s p v = [] →
      VersionDetailView.get s p v = .error .http404) ∧
    (ProjectVersion.get_latest s "Django" = .ok pv →
      HomeView.get s =
        .ok (pv, s.klasses.filter (fun k => k.module.project_version == pv))) := by
  refine ⟨fun h => ?_, fun h => ?_, fun h => ?_⟩
  · unfold VersionDetailView.get VersionDetailView.get_project_version
    rw [h]
    rfl
  · unfold VersionDetailView.get VersionDetailView.get_project_version
    rw [h]
    rfl
  · unfold HomeView.get HomeView.get_project_version
    rw [h]
    rfl

/-- Witness for the amended C8: the miscased tuple (django, 1.0) resolves
case-insensitively with the version's class list, an unknown tuple yields
`Http404`, and the home page lists the classes of the latest version. -/
theorem version_page_ci_resolution_witness :
    VersionDetailView.get storeTwo "django" "1.0" = .ok (pv10, [kl10]) ∧
    VersionDetailView.get storeTwo "Flask" "9" = .error .http404 ∧
    HomeView.get storeTwo = .ok (pv20, [kl20]) :=
  ⟨(version_page_ci_resolution storeTwo "django" "1.0" pv10).1 (by decide),
   (version_page_ci_resolution storeTwo "Flask" "9" pv10).2.1 (by decide),
   (version_page_ci_resolution storeTwo "Flask" "9" pv20).2.2 (by decide)⟩

/-- C9: every page operation is read-only and deterministic — one request
leaves the store exactly as it found it, and running the same request again
on that store yields the identical outcome. -/
theorem views_read_only_and_deterministic (req : PageRequest) (s : Store) :
    (handle req s).2 = s ∧ (handle req ((handle req s).2)).1 = (handle req s).1 := by
  cases req <;> exact ⟨rfl, rfl⟩

/-- C10: on the class-by-name-latest page every successful lookup carries the
redirect hint — the found class's canonical URL — because the precise step
unconditionally misses; the hint is never absent on success. -/
theorem latest_klass_always_sets_push_state_url
    (s : Store) (p k : String) (kl : Klass)
    (h : Klass.get_latest_for_name s k p = .ok kl) :
    LatestKlassDetailView.get_object s p k = .ok (kl, some kl.get_absolute_url) := by
  unfold LatestKlassDetailView.get_object LatestKlassDetailView.get_precise_object
    LatestKlassDetailView.get_fuzzy_object
  rw [h]

/-- Witness for C10: with the request tuple (Django, View) matching the
stored values case-sensitively, the hint is still present, pointing at the
found class's canonical URL. -/
theorem latest_klass_always_sets_push_state_url_witness :
    LatestKlassDetailView.get_object storeTwo "Django" "View" =
      .ok (kl20, some "/Django/2.0/shortcuts/View/") :=
  latest_klass_always_sets_push_state_url storeTwo "Django" "View" kl20 (by decide)
